import Mathlib

/-!
Verification of the cache-aware product repository layer of the
`go-ecommerce-be` catalog service.

The development shallowly embeds the Go code of
`internal/product/repository` (product repository: Redis read-through
cache over the GORM store) and the product service layer
(`internal/product/service`).  Products, filters and cache entries are
plain Lean structures; the repository state is a pair of the
authoritative store and the cache key/value space; each repository
operation is a state-passing function returning its result together
with the successor state.

Modelling conventions:
* Go `uuid.UUID` is modelled by its string rendering (`id.String()` is
  the identity), `float64` prices by `Int` (no claim depends on float
  rounding), and `time.Duration` TTLs by nanosecond counts, so that
  `10 * time.Minute` keeps its literal shape.
* JSON (de)serialization is modelled by the tagged sum `CacheVal`:
  `json.Marshal` of a product or a list result is constructor
  injection (it cannot fail for these types), `json.Unmarshal` is the
  partial projection back, and `CacheVal.junk` stands for a cached
  payload that does not deserialize into the expected shape.
* Fallible external calls are modelled by explicit Boolean fault
  parameters exactly where a claim is about the failure path: the GORM
  save/delete in `Update`/`Delete` and the Redis `Get` in `GetByID`.
  All other store and cache calls are modelled on their success path.
* String helpers (`strLower`, `strHasSub`, `strStarts`) are char-list
  implementations of `strings.ToLower`, SQL `LIKE '%t%'` containment
  and the Redis `KEYS "p*"` glob, chosen so that every definition
  kernel-evaluates on concrete inputs.
-/

/-- ASCII lowering of one character, as `strings.ToLower` acts on ASCII. -/
def lowerChar (c : Char) : Char :=
  if 65 ≤ c.toNat ∧ c.toNat ≤ 90 then Char.ofNat (c.toNat + 32) else c

/-- Model of `strings.ToLower` on the character list of a string. -/
def strLower (s : String) : String := ⟨s.data.map lowerChar⟩

/-- Does the second list occur at the head of the first? -/
def listStarts : List Char → List Char → Bool
  | [], _ => true
  | _ :: _, [] => false
  | p :: ps, c :: cs => p = c && listStarts ps cs

/-- Substring occurrence on character lists. -/
def listHasSub (pat : List Char) : List Char → Bool
  | [] => listStarts pat []
  | c :: cs => listStarts pat (c :: cs) || listHasSub pat cs

/-- SQL `LIKE '%pat%'` containment: `pat` occurs somewhere in `s`. -/
def strHasSub (s pat : String) : Bool := listHasSub pat.data s.data

/-- Redis `KEYS "pat*"` matching: `s` starts with `pat`. -/
def strStarts (s pat : String) : Bool := listStarts pat.data s.data

/-- ASCII raising of one character, as `strings.ToUpper` acts on ASCII. -/
def upperChar (c : Char) : Char :=
  if 97 ≤ c.toNat ∧ c.toNat ≤ 122 then Char.ofNat (c.toNat - 32) else c

/-- Model of `strings.ToUpper` on the character list of a string. -/
def strUpper (s : String) : String := ⟨s.data.map upperChar⟩

/-- Go `%t` formatting of a boolean. -/
def goBool (b : Bool) : String := if b then "true" else "false"

/-- Value of `time.Minute` in nanoseconds. -/
def timeMinute : Nat := 60 * 1000000000

/-- Embedding of `domain.Product` (the product entity). -/
structure Product where
  ID : String
  Name : String
  Description : String
  Price : Int
  CategoryID : String
  Stock : Int
  ImageURL : String
  SKU : String
  IsActive : Bool
  CreatedAt : Int
  UpdatedAt : Int
deriving DecidableEq, Repr

/-- Embedding of `domain.ProductFilters` (filter set for collection queries). -/
structure ProductFilters where
  CategoryID : Option String
  MinPrice : Option Int
  MaxPrice : Option Int
  Search : String
  IsActive : Option Bool
  InStock : Option Bool
  Limit : Int
  Offset : Int
  SortBy : String
  SortOrder : String
deriving DecidableEq, Repr

/-- Embedding of `domain.ProductList` (paginated list result of the service layer). -/
structure ProductList where
  Products : List Product
  Total : Int
  Limit : Int
  Offset : Int
  HasMore : Bool
deriving DecidableEq, Repr

/-- A cached payload: the image of `json.Marshal` on a product or on a
list result, or `junk` for a payload that fails to deserialize. -/
inductive CacheVal where
  | prodVal (p : Product)
  | listVal (ps : List Product) (total : Int)
  | junk (s : String)
deriving DecidableEq, Repr

/-- One Redis entry: key, payload, TTL in nanoseconds. -/
abbrev CacheEntry := String × CacheVal × Nat

/-- The authoritative relational store (the `products` table). -/
structure Store where
  products : List Product
deriving DecidableEq, Repr

/-- Combined repository state: GORM store plus Redis cache. -/
structure RState where
  store : Store
  cache : List CacheEntry
deriving DecidableEq, Repr

/-- Errors surfaced by the repository layer. -/
inductive RepoErr where
  | notFound (msg : String)
  | dbErr (msg : String)
deriving DecidableEq, Repr

/-- Redis `GET key`: the payload at `key`, if present. -/
def cacheGet (c : List CacheEntry) (k : String) : Option CacheVal :=
  match c.find? (fun e => e.1 = k) with
  | some e => some e.2.1
  | none => none

/-- Redis `SET key val ttl`: overwrite any entry at `key`. -/
def cacheSet (c : List CacheEntry) (k : String) (v : CacheVal) (ttl : Nat) :
    List CacheEntry :=
  c.filter (fun e => e.1 ≠ k) ++ [(k, v, ttl)]

/-- Redis `DEL key` for a single key. -/
def cacheDel (c : List CacheEntry) (k : String) : List CacheEntry :=
  c.filter (fun e => e.1 ≠ k)

/-- Redis `KEYS "pre*"`: all keys starting with `pre`. -/
def cacheKeysWith (c : List CacheEntry) (pre : String) : List String :=
  (c.map (fun e => e.1)).filter (fun k => strStarts k pre)

/-- Redis `DEL k1 k2 ...` for a batch of keys. -/
def cacheDelMany (c : List CacheEntry) (ks : List String) : List CacheEntry :=
  c.filter (fun e => ¬ ks.contains e.1)

/-- The single-entity cache key `fmt.Sprintf("product:%s", id.String())`. -/
def pkey (id : String) : String := "product:" ++ id

/-- Embedding of `productRepository.buildCacheKey` (repository, lines 303-323): the
collection cache key for a filter set, `""` meaning "do not cache". -/
def buildCacheKey (f : ProductFilters) : String :=
  if f.Search ≠ "" ∨ f.MinPrice.isSome ∨ f.MaxPrice.isSome then
    ""
  else
    let key := "products:list"
    let key := match f.CategoryID with
      | some c => key ++ ":cat_" ++ c
      | none => key
    let key := match f.IsActive with
      | some b => key ++ ":active_" ++ goBool b
      | none => key
    let key := match f.InStock with
      | some b => key ++ ":stock_" ++ goBool b
      | none => key
    let key := key ++ ":limit_" ++ toString f.Limit ++ ":offset_" ++ toString f.Offset
    key ++ ":sort_" ++ f.SortBy ++ "_" ++ f.SortOrder

/-- Modelled from the spec (`KeyForFilterSet`), for comparison with
`buildCacheKey`: no key when the filter set has a free-text search term
or a price bound; otherwise the segments category id, active flag,
in-stock flag (each only when present), then limit, offset, sort field
and sort direction, concatenated in that fixed order after the
`products:list` prefix marker. -/
def specKeyForFilterSet (f : ProductFilters) : Option String :=
  if f.Search ≠ "" ∨ f.MinPrice.isSome ∨ f.MaxPrice.isSome then
    none
  else
    some ("products:list"
      ++ (match f.CategoryID with | some c => ":cat_" ++ c | none => "")
      ++ (match f.IsActive with | some b => ":active_" ++ goBool b | none => "")
      ++ (match f.InStock with | some b => ":stock_" ++ goBool b | none => "")
      ++ (":limit_" ++ toString f.Limit)
      ++ (":offset_" ++ toString f.Offset)
      ++ (":sort_" ++ f.SortBy ++ "_" ++ f.SortOrder))

/-- Whether a product passes the SQL search predicate
`LOWER(name) LIKE %term% OR LOWER(description) LIKE %term%`. -/
def searchMatch (p : Product) (term : String) : Bool :=
  strHasSub (strLower p.Name) term || strHasSub (strLower p.Description) term

/-- Less-or-equal comparator for `ORDER BY <sortBy> ASC`; columns other
than the three documented sort fields are left unordered. -/
def leOn (sortBy : String) (a b : Product) : Bool :=
  match sortBy with
  | "name" => decide (a.Name ≤ b.Name)
  | "price" => decide (a.Price ≤ b.Price)
  | "created_at" => decide (a.CreatedAt ≤ b.CreatedAt)
  | _ => true

/-- Comparator for the `ORDER BY` clause built from the filter set
(`fmt.Sprintf("%s %s", SortBy, strings.ToUpper(SortOrder))`). -/
def orderLe (f : ProductFilters) (a b : Product) : Bool :=
  if strUpper f.SortOrder = "DESC" then
    leOn f.SortBy b a
  else
    leOn f.SortBy a b

/-- Ordered insertion for the stable sort below. -/
def insertLe (le : Product → Product → Bool) (p : Product) :
    List Product → List Product
  | [] => [p]
  | q :: qs => if le p q then p :: q :: qs else q :: insertLe le p qs

/-- Stable insertion sort standing in for the SQL `ORDER BY`. -/
def sortLe (le : Product → Product → Bool) : List Product → List Product
  | [] => []
  | p :: ps => insertLe le p (sortLe le ps)

/-- The store-side part of `productRepository.List` (lines 148-192):
filters in source order, count before pagination, then order, offset
and limit (offset and limit only when positive). -/
def queryProducts (s : Store) (f : ProductFilters) : List Product × Int :=
  let ps := s.products
  let ps := match f.CategoryID with
    | some c => ps.filter (fun p => p.CategoryID = c)
    | none => ps
  let ps := match f.MinPrice with
    | some m => ps.filter (fun p => m ≤ p.Price)
    | none => ps
  let ps := match f.MaxPrice with
    | some m => ps.filter (fun p => p.Price ≤ m)
    | none => ps
  let ps := if f.Search ≠ "" then
      ps.filter (fun p => searchMatch p (strLower f.Search))
    else ps
  let ps := match f.IsActive with
    | some b => ps.filter (fun p => p.IsActive = b)
    | none => ps
  let ps := if f.InStock = some true then ps.filter (fun p => 0 < p.Stock) else ps
  let total : Int := ps.length
  let ps := sortLe (orderLe f) ps
  let ps := if 0 < f.Offset then ps.drop f.Offset.toNat else ps
  let ps := if 0 < f.Limit then ps.take f.Limit.toNat else ps
  (ps, total)

/-- The store lookup inside `productRepository.GetByID` (lines 72-82):
`First(&product, "id = ?", id)` with not-found mapped to a typed error. -/
def storeGetByID (s : Store) (id : String) : Except RepoErr Product :=
  match s.products.find? (fun p => p.ID = id) with
  | some p => Except.ok p
  | none => Except.error (RepoErr.notFound "Product not found")

/-- Embedding of `productRepository.GetByID` (lines 61-90): probe the cache, fall
through to the store on miss, read failure (`getFails`) or a payload
that does not deserialize, and repopulate the cache with a 10-minute
TTL only when the store returns a product. -/
def repoGetByID (getFails : Bool) (st : RState) (id : String) :
    Except RepoErr Product × RState :=
  let cacheKey := pkey id
  match (if getFails then none else cacheGet st.cache cacheKey) with
  | some (CacheVal.prodVal p) => (Except.ok p, st)
  | _ =>
    match st.store.products.find? (fun p => p.ID = id) with
    | none => (Except.error (RepoErr.notFound "Product not found"), st)
    | some p =>
      (Except.ok p,
       { st with cache := cacheSet st.cache cacheKey (CacheVal.prodVal p) (10 * timeMinute) })

/-- Embedding of `productRepository.GetBySKU` (lines 92-106): a pure store lookup by
SKU; no cache interaction at all. -/
def repoGetBySKU (st : RState) (sku : String) :
    Except RepoErr Product × RState :=
  match st.store.products.find? (fun p => p.SKU = sku) with
  | some p => (Except.ok p, st)
  | none => (Except.error (RepoErr.notFound "Product not found"), st)

/-- GORM `Save`: replace the row with the product's primary key, or
insert it when no such row exists. -/
def saveProduct (s : Store) (p : Product) : Store :=
  if s.products.any (fun q => q.ID = p.ID) then
    { products := s.products.map (fun q => if q.ID = p.ID then p else q) }
  else
    { products := s.products ++ [p] }

/-- Embedding of `productRepository.Create` (lines 54-59): insert into the store;
no cache side effect in the repository itself. -/
def repoCreate (dbFails : Bool) (st : RState) (p : Product) :
    Except RepoErr Unit × RState :=
  if dbFails then
    (Except.error (RepoErr.dbErr "failed to create product"), st)
  else
    (Except.ok (), { st with store := { products := st.store.products ++ [p] } })

/-- Embedding of `productRepository.Update` (lines 108-118): save to the store first
(returning the wrapped store error with no cache side effect on
failure), then delete the product's single-entity cache key. -/
def repoUpdate (dbFails : Bool) (st : RState) (p : Product) :
    Except RepoErr Unit × RState :=
  if dbFails then
    (Except.error (RepoErr.dbErr "failed to update product"), st)
  else
    let st := { st with store := saveProduct st.store p }
    (Except.ok (), { st with cache := cacheDel st.cache (pkey p.ID) })

/-- Embedding of `productRepository.Delete` (lines 120-130): delete from the store
first (returning the wrapped store error with no cache side effect on
failure), then delete the single-entity cache key. -/
def repoDelete (dbFails : Bool) (st : RState) (id : String) :
    Except RepoErr Unit × RState :=
  if dbFails then
    (Except.error (RepoErr.dbErr "failed to delete product"), st)
  else
    let st := { st with store := { products := st.store.products.filter (fun p => p.ID ≠ id) } }
    (Except.ok (), { st with cache := cacheDel st.cache (pkey id) })

/-- Embedding of `productRepository.List` (lines 132-209): serve a cacheable filter
set from the cache when the entry deserializes, otherwise query the
store and, for cacheable filter sets, repopulate with a 5-minute TTL. -/
def repoList (st : RState) (f : ProductFilters) :
    (List Product × Int) × RState :=
  let cacheKey := buildCacheKey f
  match (if cacheKey = "" then none else cacheGet st.cache cacheKey) with
  | some (CacheVal.listVal ps total) => ((ps, total), st)
  | _ =>
    let r := queryProducts st.store f
    if cacheKey = "" then
      (r, st)
    else
      (r, { st with cache := cacheSet st.cache cacheKey (CacheVal.listVal r.1 r.2) (5 * timeMinute) })

/-- Embedding of `productRepository.InvalidateProductCache` (lines 279-301),
verbatim control flow: enumerate `product:*` keys and, when any exist,
delete them and return; only otherwise fall through to enumerate and
delete the `products:*` collection keys. -/
def invalidateProductCache (st : RState) : Except RepoErr Unit × RState :=
  let keys := cacheKeysWith st.cache "product:"
  if 0 < keys.length then
    (Except.ok (), { st with cache := cacheDelMany st.cache keys })
  else
    let listKeys := cacheKeysWith st.cache "products:"
    if 0 < listKeys.length then
      (Except.ok (), { st with cache := cacheDelMany st.cache listKeys })
    else
      (Except.ok (), st)

/-- The default-normalization prelude of `productService.ListProducts`
(service, lines 310-322), as the same sequence of conditional field
updates. -/
def normalizeFilters (f : ProductFilters) : ProductFilters :=
  let f1 := if f.Limit ≤ 0 then { f with Limit := 20 } else f
  let f2 := if 100 < f1.Limit then { f1 with Limit := 100 } else f1
  let f3 := if f2.SortBy = "" then { f2 with SortBy := "created_at" } else f2
  if f3.SortOrder = "" then { f3 with SortOrder := "desc" } else f3

/-- Embedding of `productService.ListProducts` (lines 309-337): normalize defaults,
delegate to the repository, and report the normalized limit and the
given offset in the returned page. -/
def serviceListProducts (st : RState) (f : ProductFilters) :
    ProductList × RState :=
  let nf := normalizeFilters f
  let r := repoList st nf
  ({ Products := r.1.1, Total := r.1.2, Limit := nf.Limit, Offset := nf.Offset,
     HasMore := decide (nf.Offset + nf.Limit < r.1.2) }, r.2)

/-- Embedding of `productService.SearchProducts` (lines 339-348): an empty query
delegates to `ListProducts` with the filter set untouched; a non-empty
query is injected into the filter set's search field first. -/
def serviceSearchProducts (st : RState) (q : String) (f : ProductFilters) :
    ProductList × RState :=
  if q = "" then
    serviceListProducts st f
  else
    serviceListProducts st { f with Search := q }

/-! Concrete fixtures used by witnesses and counterexamples. -/

/-- A sample product row. -/
def apple : Product :=
  { ID := "a1", Name := "apple", Description := "", Price := 10, CategoryID := "c1",
    Stock := 3, ImageURL := "", SKU := "X1", IsActive := true, CreatedAt := 1, UpdatedAt := 1 }

/-- The sample product after a price update. -/
def appleV2 : Product := { apple with Price := 20, UpdatedAt := 2 }

/-- Fully defaulted cacheable filter set (post-normalization values). -/
def F0 : ProductFilters :=
  { CategoryID := none, MinPrice := none, MaxPrice := none, Search := "",
    IsActive := none, InStock := none, Limit := 20, Offset := 0,
    SortBy := "created_at", SortOrder := "desc" }

/-- A filter set carrying a free-text search term and unset defaults. -/
def fSearch : ProductFilters := { F0 with Search := "zzz", Limit := 0, SortBy := "", SortOrder := "" }

/-- The collection cache key of the defaulted filter set. -/
def listKey0 : String := "products:list:limit_20:offset_0:sort_created_at_desc"

/-- State with an empty store and an empty cache. -/
def stEmpty : RState := { store := { products := [] }, cache := [] }

/-- State with one product and an empty cache. -/
def stApple : RState := { store := { products := [apple] }, cache := [] }

/-- State whose cache holds a payload at the sample product's key that
fails to deserialize. -/
def stJunk : RState :=
  { store := { products := [apple] },
    cache := [(pkey "a1", CacheVal.junk "garbage", 10 * timeMinute)] }

/-- State whose cache holds both a single-entity key (for an unrelated
product) and a collection key, the configuration that exposes the early
return of the invalidation sweep. -/
def stBoth : RState :=
  { store := { products := [apple] },
    cache := [(pkey "b2", CacheVal.prodVal appleV2, 10 * timeMinute),
              (listKey0, CacheVal.listVal [apple] 1, 5 * timeMinute)] }

/-! Shared helper lemmas. -/

/-- Appending to a non-empty string keeps it non-empty. -/
theorem strAppend_ne_empty (a b : String) (h : a ≠ "") : a ++ b ≠ "" := by
  intro he
  apply h
  have hl := congrArg String.length he
  rw [String.length_append, show ("" : String).length = 0 from rfl] at hl
  simp only [String.length] at hl
  have ha : a.data = [] := List.length_eq_zero.mp (by omega)
  cases a
  simp_all

/-- Deleting a key removes it from the cache. -/
theorem cacheGet_cacheDel (c : List CacheEntry) (k : String) :
    cacheGet (cacheDel c k) k = none := by
  unfold cacheGet cacheDel
  have h : (c.filter fun e => e.1 ≠ k).find? (fun e => e.1 = k) = none := by
    rw [List.find?_eq_none]
    intro e he
    have := (List.mem_filter.mp he).2
    simp_all
  rw [h]

/-- Replacing every row with the mutated row's primary key makes the
first matching row the mutated one. -/
theorem find_map_replace (l : List Product) (p' : Product)
    (h : l.any (fun q => q.ID = p'.ID) = true) :
    (l.map (fun q => if q.ID = p'.ID then p' else q)).find?
      (fun q => q.ID = p'.ID) = some p' := by
  induction l with
  | nil => simp at h
  | cons q l ih =>
    by_cases hq : q.ID = p'.ID
    · simp [List.find?, hq]
    · have h' : l.any (fun q => q.ID = p'.ID) = true := by simp_all
      simp [List.find?, hq, ih h']

/-- A row appended behind non-matching rows is the first match. -/
theorem find_append_new (l : List Product) (p' : Product)
    (h : l.any (fun q => q.ID = p'.ID) = false) :
    (l ++ [p']).find? (fun q => q.ID = p'.ID) = some p' := by
  induction l with
  | nil => simp [List.find?]
  | cons q l ih =>
    have hq : (q.ID = p'.ID) = False := by simp_all
    have h' : l.any (fun q => q.ID = p'.ID) = false := by simp_all
    simp [List.find?, hq, ih h']

/-- After a GORM save, looking the saved product's id up finds exactly
the saved product. -/
theorem find_save (s : Store) (p' : Product) :
    (saveProduct s p').products.find? (fun q => q.ID = p'.ID) = some p' := by
  unfold saveProduct
  by_cases h : s.products.any (fun q => q.ID = p'.ID)
  · rw [if_pos h]
    exact find_map_replace s.products p' h
  · rw [if_neg h]
    exact find_append_new s.products p' (by simpa using h)

/-- Closed form of the service-layer default normalization. -/
theorem normalizeFilters_eq (f : ProductFilters) :
    normalizeFilters f =
      { f with
        Limit := if f.Limit ≤ 0 then 20 else if 100 < f.Limit then 100 else f.Limit,
        SortBy := if f.SortBy = "" then "created_at" else f.SortBy,
        SortOrder := if f.SortOrder = "" then "desc" else f.SortOrder } := by
  obtain ⟨cid, minp, maxp, se, ia, isk, lim, off, sb, so⟩ := f
  simp only [normalizeFilters]
  split_ifs <;> simp_all

/-- Normalization does not touch the search term. -/
theorem normalizeFilters_search (f : ProductFilters) :
    (normalizeFilters f).Search = f.Search := by
  rw [normalizeFilters_eq]

/-- A filter set with a search term is never cacheable. -/
theorem buildCacheKey_of_search (f : ProductFilters) (h : f.Search ≠ "") :
    buildCacheKey f = "" := by
  unfold buildCacheKey
  rw [if_pos (Or.inl h)]

/-- A cacheable filter set's key is non-empty. -/
theorem buildCacheKey_ne_empty (f : ProductFilters)
    (h : ¬(f.Search ≠ "" ∨ f.MinPrice.isSome ∨ f.MaxPrice.isSome)) :
    buildCacheKey f ≠ "" := by
  obtain ⟨cid, minp, maxp, se, ia, isk, lim, off, sb, so⟩ := f
  simp only [buildCacheKey]
  rw [if_neg h]
  cases cid <;> cases ia <;> cases isk <;>
    simp only [String.append_assoc] <;>
    exact strAppend_ne_empty _ _ (by decide)

/-- With no cache key, listing is a pure store query. -/
theorem repoList_nocache (st : RState) (f : ProductFilters)
    (h : buildCacheKey f = "") :
    repoList st f = (queryProducts st.store f, st) := by
  unfold repoList
  rw [h]
  simp

/-! Claim theorems. -/

/-- C3: the cache-key function for filter sets is a pure function that
returns no key exactly when the filter set has a non-empty search term
or a min or max price bound, and otherwise returns the key in the
fixed-order format dictated by the spec (category id,
active flag, in-stock flag when set, then limit, offset, sort field,
sort direction, in that fixed order); two filter sets with identical
field values produce identical keys. -/
theorem buildCacheKey_matches_spec (f : ProductFilters) :
    (buildCacheKey f = "" ↔ (f.Search ≠ "" ∨ f.MinPrice.isSome ∨ f.MaxPrice.isSome)) ∧
    specKeyForFilterSet f =
      (if buildCacheKey f = "" then none else some (buildCacheKey f)) ∧
    (∀ g : ProductFilters, f = g → buildCacheKey f = buildCacheKey g) := by
  by_cases hc : (f.Search ≠ "" ∨ f.MinPrice.isSome ∨ f.MaxPrice.isSome)
  · refine ⟨⟨fun _ => hc, fun _ => ?_⟩, ?_, fun g hg => hg ▸ rfl⟩
    · unfold buildCacheKey
      rw [if_pos hc]
    · unfold buildCacheKey specKeyForFilterSet
      rw [if_pos hc, if_pos hc]
      simp
  · have hne := buildCacheKey_ne_empty f hc
    refine ⟨⟨fun h => absurd h hne, fun h => absurd h hc⟩, ?_, fun g hg => hg ▸ rfl⟩
    rw [if_neg hne]
    obtain ⟨cid, minp, maxp, se, ia, isk, lim, off, sb, so⟩ := f
    simp only [buildCacheKey, specKeyForFilterSet]
    rw [if_neg hc, if_neg hc]
    cases cid <;> cases ia <;> cases isk <;>
      simp only [← String.append_assoc, String.append_empty, String.empty_append,
        Option.some.injEq]

/-- Witness for C3 at the defaulted filter set. -/
theorem buildCacheKey_matches_spec_witness :
    specKeyForFilterSet F0 =
      (if buildCacheKey F0 = "" then none else some (buildCacheKey F0)) ∧
    buildCacheKey F0 = "products:list:limit_20:offset_0:sort_created_at_desc" ∧
    buildCacheKey F0 = buildCacheKey F0 :=
  ⟨(buildCacheKey_matches_spec F0).2.1, by decide,
   (buildCacheKey_matches_spec F0).2.2 F0 rfl⟩

/-- C6: the List operation normalizes defaults before querying — a
non-positive limit becomes 20, a limit above 100 becomes 100, an unset
sort field becomes creation time, an unset sort direction becomes
descending — and the normalized limit together with the given offset
is what the repository query receives and what the returned page
reports. -/
theorem listProducts_normalizes_defaults (st : RState) (f : ProductFilters) :
    normalizeFilters f =
      { f with
        Limit := if f.Limit ≤ 0 then 20 else if 100 < f.Limit then 100 else f.Limit,
        SortBy := if f.SortBy = "" then "created_at" else f.SortBy,
        SortOrder := if f.SortOrder = "" then "desc" else f.SortOrder } ∧
    serviceListProducts st f =
      ({ Products := (repoList st (normalizeFilters f)).1.1,
         Total := (repoList st (normalizeFilters f)).1.2,
         Limit := (normalizeFilters f).Limit,
         Offset := f.Offset,
         HasMore := decide ((normalizeFilters f).Offset + (normalizeFilters f).Limit
            < (repoList st (normalizeFilters f)).1.2) },
       (repoList st (normalizeFilters f)).2) := by
  refine ⟨normalizeFilters_eq f, ?_⟩
  have ho : (normalizeFilters f).Offset = f.Offset := by rw [normalizeFilters_eq]
  simp [serviceListProducts, ho]

/-- C7: when the store mutation inside Update or Delete fails, the
operation returns the wrapped store error and the repository state —
the cache in particular — is left untouched. -/
theorem update_delete_store_error_frame (st : RState) (p : Product) (id : String) :
    repoUpdate true st p = (Except.error (RepoErr.dbErr "failed to update product"), st) ∧
    repoDelete true st id = (Except.error (RepoErr.dbErr "failed to delete product"), st) :=
  ⟨rfl, rfl⟩

/-- C10: GetBySKU goes directly to the store: it never changes the
repository state (in particular the cache), and its result is the same
for any cache contents. -/
theorem getBySKU_frame (st : RState) (sku : String) :
    (repoGetBySKU st sku).2 = st ∧
    ∀ c : List CacheEntry,
      (repoGetBySKU { st with cache := c } sku).1 = (repoGetBySKU st sku).1 := by
  constructor
  · unfold repoGetBySKU
    cases h : st.store.products.find? (fun p => p.SKU = sku) <;> simp [h]
  · intro c
    unfold repoGetBySKU
    cases h : st.store.products.find? (fun p => p.SKU = sku) <;> simp [h]

/-- C1 (failing-input evaluation): with one unrelated single-entity key
in the cache, a product Update followed by the invalidation sweep
leaves the collection cache entry in place — the sweep's early return
after deleting `product:*` keys skips the `products:*` batch. -/
theorem invalidateSweep_leaves_collection_key :
    cacheGet (invalidateProductCache (repoUpdate false stBoth apple).2).2.cache listKey0 =
      some (CacheVal.listVal [apple] 1) := by decide

/-- C9 (failing-input evaluation): starting from a cache holding a
single-entity key and a collection key, the collection entry is still
present after the first sweep, and the second sweep — far from being a
no-op — changes the cache again by deleting it. -/
theorem invalidateSweep_not_idempotent :
    cacheGet (invalidateProductCache stBoth).2.cache listKey0 =
      some (CacheVal.listVal [apple] 1) ∧
    (invalidateProductCache (invalidateProductCache stBoth).2).2.cache ≠
      (invalidateProductCache stBoth).2.cache := by decide

/-- C2: warming the single-entity cache with GetByID, then updating the
product, then calling GetByID again (no interleaving writes) returns
the post-update product, never the stale cached one: Update deletes
the single-entity key, so the second read reloads from the store. -/
theorem update_then_get_returns_new_value (st : RState) (p' : Product) (id : String)
    (h : p'.ID = id) :
    (repoUpdate false (repoGetByID false st id).2 p').1 = Except.ok () ∧
    (repoGetByID false (repoUpdate false (repoGetByID false st id).2 p').2 id).1 =
      Except.ok p' := by
  subst h
  refine ⟨rfl, ?_⟩
  generalize (repoGetByID false st p'.ID).2 = st1
  simp [repoUpdate, repoGetByID, cacheGet_cacheDel, find_save]

/-- Witness for C2: update the sample product's price and read it back. -/
theorem update_then_get_returns_new_value_witness :
    (repoGetByID false (repoUpdate false (repoGetByID false stApple "a1").2 appleV2).2 "a1").1 =
      Except.ok appleV2 :=
  (update_then_get_returns_new_value stApple appleV2 "a1" rfl).2

/-- C4: on a cache miss, GetByID mirrors the store outcome — a
not-found store reply surfaces as the NotFound error with the state
(and hence the cache) unchanged, and a cache entry is written only
when the store returns a product, then with a 10-minute expiry. -/
theorem getByID_negative_never_cached (st : RState) (id : String)
    (hmiss : cacheGet st.cache (pkey id) = none) :
    (match storeGetByID st.store id with
     | Except.error e => repoGetByID false st id = (Except.error e, st)
     | Except.ok p => repoGetByID false st id =
         (Except.ok p,
          { st with cache := cacheSet st.cache (pkey id) (CacheVal.prodVal p) (10 * timeMinute) })) := by
  unfold repoGetByID storeGetByID
  cases hfind : st.store.products.find? (fun p => p.ID = id) <;> simp [hmiss, hfind]

/-- Witness for C4: an unknown id against an empty store and cache. -/
theorem getByID_negative_never_cached_witness :
    repoGetByID false stEmpty "a1" =
      (Except.error (RepoErr.notFound "Product not found"), stEmpty) := by
  have h := getByID_negative_never_cached stEmpty "a1" rfl
  rw [show storeGetByID stEmpty.store "a1" =
        Except.error (RepoErr.notFound "Product not found") from rfl] at h
  exact h

/-- C8: a failing cache read, or a cached payload that does not
deserialize, makes GetByID return exactly the store query's result —
the cache error is swallowed and treated as a miss. -/
theorem cacheRead_failure_falls_through (st : RState) (id : String) :
    (repoGetByID true st id).1 = storeGetByID st.store id ∧
    ∀ s : String, cacheGet st.cache (pkey id) = some (CacheVal.junk s) →
      (repoGetByID false st id).1 = storeGetByID st.store id := by
  constructor
  · unfold repoGetByID storeGetByID
    cases hfind : st.store.products.find? (fun p => p.ID = id) <;> simp [hfind]
  · intro s hs
    unfold repoGetByID storeGetByID
    cases hfind : st.store.products.find? (fun p => p.ID = id) <;> simp [hs, hfind]

/-- Witness for C8: a junk payload under the sample product's key. -/
theorem cacheRead_failure_falls_through_witness :
    (repoGetByID false stJunk "a1").1 = storeGetByID stJunk.store "a1" :=
  (cacheRead_failure_falls_through stJunk "a1").2 "garbage" (by decide)

/-- C5 counterexample: with an empty search term, SearchProducts
delegates with the filter set untouched instead of injecting the term,
so its result differs from List with the term injected — here the
caller's stale search field "zzz" filters everything out while the
injected empty term would return the product. -/
theorem searchProducts_claim_cex :
    ¬ ((serviceSearchProducts stApple "" fSearch).1 =
        (serviceListProducts stApple { fSearch with Search := "" }).1) := by decide

/-- C5 (amended): for every non-empty search term, SearchProducts
returns the result of List with the term injected into the filter
set's search field, leaves the repository state unchanged, and its
result is independent of the cache contents (no read, no write). -/
theorem searchProducts_fresh (st : RState) (q : String) (f : ProductFilters)
    (h : q ≠ "") :
    serviceSearchProducts st q f =
      ((serviceListProducts st { f with Search := q }).1, st) ∧
    ∀ c : List CacheEntry,
      (serviceSearchProducts { st with cache := c } q f).1 =
        (serviceSearchProducts st q f).1 := by
  have hkey : buildCacheKey (normalizeFilters { f with Search := q }) = "" := by
    apply buildCacheKey_of_search
    rw [normalizeFilters_search]
    exact h
  constructor
  · unfold serviceSearchProducts
    rw [if_neg h]
    have h2 : (serviceListProducts st { f with Search := q }).2 = st := by
      unfold serviceListProducts
      simp only [repoList_nocache st _ hkey]
    exact Prod.ext rfl h2
  · intro c
    unfold serviceSearchProducts
    rw [if_neg h, if_neg h]
    unfold serviceListProducts
    have hr := fun st' => repoList_nocache st' _ hkey
    simp only [hr]

/-- Witness for C5 (amended) at a non-empty term. -/
theorem searchProducts_fresh_witness :
    serviceSearchProducts stApple "zzz" F0 =
      ((serviceListProducts stApple { F0 with Search := "zzz" }).1, stApple) :=
  (searchProducts_fresh stApple "zzz" F0 (by decide)).1
